import Mathlib

/-!
Shallow embedding of the isolated-execution supervisor of this repository
(`pyannote_isolated.py`) and its helper module (`pyannote_mps_helper.py`).

Machine-level collaborators (torch, the pyannote pipeline, ffmpeg, the
filesystem, process scheduling) are abstracted into environment records whose
fields give the outcome of each fallible call the Python code makes; the
control flow, the exception handling, the payload construction and the
cleanup logic are translated statement by statement from the source.
-/

/-- Test that `pat` occurs at the head of `hay`. -/
def charsStartWith : List Char → List Char → Bool
  | _, [] => true
  | [], _ :: _ => false
  | c :: cs, p :: ps => c = p && charsStartWith cs ps

/-- Test that `pat` occurs contiguously somewhere in `hay`. -/
def charsHaveSub (pat : List Char) : List Char → Bool
  | [] => pat.isEmpty
  | c :: t => charsStartWith (c :: t) pat || charsHaveSub pat t

/-- ASCII lower-casing of one character, as Python `str.lower` acts on the
ASCII range the error texts use. -/
def charToLower (c : Char) : Char :=
  if 65 ≤ c.toNat ∧ c.toNat ≤ 90 then Char.ofNat (c.toNat + 32) else c

/-- Lower-casing of a character list. -/
def lowerChars (cs : List Char) : List Char := cs.map charToLower

/-- Model of the Python expression `s.lower()`. -/
def strToLower (s : String) : String := ⟨lowerChars s.data⟩

/-- Boolean substring test, modelling the Python expression `pat in hay`. -/
def strContains (hay pat : String) : Bool :=
  charsHaveSub pat.toList hay.toList

/-- Memory-error sniffing condition of `pyannote_isolated.py` line 151 and
`pyannote_mps_helper.py` line 143:
`out of memory in str(e).lower() or memory in str(e).lower()` (quotes of the
Python string literals omitted). -/
def memRelated (msg : String) : Bool :=
  strContains (strToLower msg) "out of memory"
    || strContains (strToLower msg) "memory"

/-- Insertion of a string into a list, keeping an ascending list ascending. -/
def insertSorted (x : String) : List String → List String
  | [] => [x]
  | y :: ys => if x ≤ y then x :: y :: ys else y :: insertSorted x ys

/-- Insertion sort on strings, modelling Python `sorted` on string lists. -/
def sortStrings : List String → List String
  | [] => []
  | x :: xs => insertSorted x (sortStrings xs)

/-- Model of the Python expression `sorted(list(set(xs)))`: the
lexicographically ascending listing of the distinct elements of `xs`. -/
def sortedUnique (xs : List String) : List String :=
  sortStrings xs.dedup

/-- Python exception value, abstracted to its class membership test that the
source actually performs (`except RuntimeError`) and its `str(e)` text. -/
structure Exc where
  isRuntimeError : Bool
  msg : String
deriving DecidableEq

/-- Diarization segment as emitted by the worker: dict with keys
`start`, `end`, `speaker` (`pyannote_isolated.py` lines 114-118). The
`end` key is called `stop` here because `end` is reserved in Lean. Times are
rationals standing for the real-valued seconds. -/
structure Segment where
  start : Rat
  stop : Rat
  speaker : String
deriving DecidableEq

/-- Result Channel Artifact content: the JSON object the worker serializes.
Each optional field is `none` exactly when the corresponding key is absent
from the written dict. -/
structure Payload where
  success : Bool
  speakers : Option (List String) := none
  segments : Option (List Segment) := none
  total_segments : Option Nat := none
  device_used : Option String := none
  processing_time : Option Rat := none
  fallback_cpu : Option Bool := none
  error : Option String := none
deriving DecidableEq

/-- Failure payload, `pyannote_isolated.py` lines 53-56 and 202-205:
`{success: False, error: str(error)}` (keys shown unquoted). -/
def mkFailurePayload (msg : String) : Payload :=
  { success := false, error := some msg }

/-- Primary-path success payload, `pyannote_isolated.py` lines 127-134.
Unreachable in the source: the line-89 `ValueError` precedes this write on
every run; the constructor is kept to document the dead construction. -/
def mkSuccessPayload (tracks : List Segment) (deviceStr : String)
    (elapsed : Rat) : Payload :=
  { success := true
    speakers := some (sortedUnique (tracks.map Segment.speaker))
    segments := some tracks
    total_segments := some tracks.length
    device_used := some deviceStr
    processing_time := some elapsed }

/-- CPU-fallback success payload, `pyannote_isolated.py` lines 173-181: note
that the source includes the original error text under `error` and does not
include `processing_time`. Unreachable in the source: the line-89
`ValueError` precedes every path to this write; kept to document the dead
construction. -/
def mkFallbackPayload (tracks : List Segment) (origMsg : String) : Payload :=
  { success := true
    speakers := some (sortedUnique (tracks.map Segment.speaker))
    segments := some tracks
    total_segments := some tracks.length
    device_used := some "cpu"
    fallback_cpu := some true
    error := some origMsg }

/-- Exception raised at `pyannote_isolated.py` line 89: the source computes
`converted_path = str(audio_path.with_suffix(_16k.wav))` (literal shown
unquoted), and `Path.with_suffix` raises `ValueError: Invalid suffix` for
any suffix that does not start with a dot. The raise is deterministic and
independent of the input path, and `ValueError` is not a subclass of
`RuntimeError`, so the sole handler of the worker cannot catch it. -/
def valueErrorSuffix : Exc :=
  { isRuntimeError := false
    msg := "ValueError: Invalid suffix _16k.wav" }

/-- Exception text for the `NameError` raised when the fallback block at
`pyannote_isolated.py` line 157 references `pipeline` although the caught
`RuntimeError` was raised before `pipeline` was assigned. -/
def nameErrorMsg : String :=
  "NameError: name pipeline is not defined"

/-- Runtime facts the Device Selector (`get_safe_device`) consults:
`hasattr(torch.backends, mps)`, `torch.backends.mps.is_available()`, and
whether the allocate/multiply/release/cache-purge self-test of lines 30-36
of `pyannote_mps_helper.py` completes without raising. -/
structure MpsEnv where
  hasMpsBackend : Bool
  mpsAvailable : Bool
  selfTestOk : Bool
deriving DecidableEq

/-- Observable outcome of the Device Selector: the device string of the
returned `torch.device`, and how many times the self-test body was run. -/
structure SelectResult where
  device : String
  selfTests : Nat
deriving DecidableEq

/-- Embedding of `get_safe_device` (`pyannote_mps_helper.py` lines 17-44).
When the self-test raises, the `fallback_to_cpu` branch returns `cpu`; with
`fallback_to_cpu=False` control falls through to the final `return
torch.device(cpu)`, so the returned device is `cpu` either way. -/
def get_safe_device (prefer_mps fallback_to_cpu : Bool) (env : MpsEnv) :
    SelectResult :=
  if prefer_mps && env.hasMpsBackend && env.mpsAvailable then
    if env.selfTestOk then { device := "mps", selfTests := 1 }
    else { device := "cpu", selfTests := 1 }
  else { device := "cpu", selfTests := 0 }

/-- Observable side effects of `process_with_memory_management`: cache
clears, garbage-collection passes, and the pipeline invocation itself. -/
inductive MemEvent where
  | mpsCache
  | cudaCache
  | gcPass
  | pipelineCall
deriving DecidableEq

/-- Device-appropriate cache clear (`pyannote_mps_helper.py` lines 123-126
and 134-137): `torch.mps.empty_cache()` on mps, `torch.cuda.empty_cache()`
on cuda, nothing otherwise. -/
def cacheClear (deviceType : String) : List MemEvent :=
  if deviceType = "mps" then [MemEvent.mpsCache]
  else if deviceType = "cuda" then [MemEvent.cudaCache]
  else []

/-- Embedding of `process_with_memory_management` (`pyannote_mps_helper.py`
lines 117-150): returns the pipeline result (or the re-raised exception)
together with the ordered event trace. The `except RuntimeError` handler only
prints suggestions and re-raises, and any other exception propagates
directly, so on every raising path the function ends at the call event. -/
def process_with_memory_management (deviceType : String)
    (call : Except Exc (List Segment)) :
    Except Exc (List Segment) × List MemEvent :=
  let pre := cacheClear deviceType ++ [MemEvent.gcPass]
  match call with
  | .ok r =>
      (.ok r, pre ++ [MemEvent.pipelineCall] ++ cacheClear deviceType
        ++ [MemEvent.gcPass])
  | .error e => (.error e, pre ++ [MemEvent.pipelineCall])

/-- Outcomes of the fallible collaborator calls whose invocations appear in
the text of the worker body `diarize_isolated`:
`create_pyannote_pipeline_safe` (may raise anything), the ffmpeg exit code
under `check=True`, the inference call through
`process_with_memory_management` (a diarization as a list of labelled
tracks, or an exception), the CPU-fallback block (`pipeline.to(cpu)` plus
re-inference), the device string the worker computes for reporting, and the
measured elapsed inference time. Only `pipelineCreation` is ever consulted:
the remaining calls sit after the unconditional `ValueError` raised at line
89, so the embedding never reads those entries. -/
structure WorkerEnv where
  pipelineCreation : Except Exc Unit
  ffmpegExitCode : Int
  inference : Except Exc (List Segment)
  fallbackRun : Except Exc (List Segment)
  deviceStr : String
  inferElapsed : Rat

/-- Observable outcome of one execution of the worker body: what it wrote to
the Result Channel path (at most one payload per path), its Python return
value, the exception escaping uncaught from `diarize_isolated` if any, and
how many times the CPU-fallback inference block was entered. -/
structure WorkerRun where
  written : Option Payload
  returned : Option Payload
  uncaught : Option Exc
  fallbackAttempts : Nat
deriving DecidableEq

/-- Embedding of the worker body `diarize_isolated`
(`pyannote_isolated.py` lines 36-209). The sole `try` spans pipeline
creation, audio conversion, inference and extraction; its only handler is
`except RuntimeError` (line 150). When the helper module is unavailable a
failure payload is written. A `RuntimeError` from pipeline creation whose
lowered text contains `memory` enters the CPU-fallback block, which at once
raises a `NameError` on the unbound `pipeline` name that the inner `except
Exception` turns into a failure payload; any other `RuntimeError` is
serialized as a failure payload directly; a non-`RuntimeError` from
pipeline creation escapes uncaught. On every run on which pipeline creation
succeeds, line 89 raises the unconditional `with_suffix` `ValueError`,
which no handler catches: the child dies with nothing written, and the
ffmpeg call, the inference call, the CPU retry and both success-payload
writes further down the function are dead code. -/
def diarize_isolated (available : Bool) (env : WorkerEnv) : WorkerRun :=
  if available = false then
    { written := some (mkFailurePayload "pyannote_mps_helper non disponible")
      returned := none, uncaught := none, fallbackAttempts := 0 }
  else
    match env.pipelineCreation with
    | .error e =>
        if e.isRuntimeError then
          if memRelated e.msg then
            { written := some (mkFailurePayload nameErrorMsg)
              returned := none, uncaught := none, fallbackAttempts := 0 }
          else
            { written := some (mkFailurePayload e.msg)
              returned := none, uncaught := none, fallbackAttempts := 0 }
        else
          { written := none, returned := none, uncaught := some e
            fallbackAttempts := 0 }
    | .ok _ =>
        { written := none, returned := none
          uncaught := some valueErrorSuffix, fallbackAttempts := 0 }

/-- State of the Result Channel Artifact at the moment the supervisor
inspects it: file absent, present but not parseable as JSON (including the
empty file left when the child died before writing), or a parsed payload. -/
inductive ArtifactState where
  | absent
  | malformed
  | valid (p : Payload)
deriving DecidableEq

/-- Payload the supervisor hands back for a given artifact state
(`pyannote_isolated.py` lines 284-302): a parsed dict with truthy
`success` is returned as is; everything else ends in `return None`. -/
def ArtifactState.successPayload : ArtifactState → Option Payload
  | .valid p => if p.success then some p else none
  | _ => none

/-- Behaviour of one spawned child, as the parent can observe it: whether it
exits before the deadline (and after how long), its exit code, the artifact
state at inspection time, and its reaction to the shutdown escalation —
whether SIGTERM kills it within the 5 s grace join, how much of that join
elapses, and how much of the 2 s post-SIGKILL join elapses. SIGKILL itself
is modelled as always effective. -/
structure ChildBehavior where
  exitsBeforeDeadline : Bool
  runTime : Rat
  exitCode : Int
  artifact : ArtifactState
  diesOnTerminate : Bool
  termWait : Rat
  killWait : Rat
deriving DecidableEq

/-- Timing sanity of a child behaviour: `process.join(timeout=5)` consumes
at most 5 s, and exactly 5 s when the child survives SIGTERM;
`process.join(timeout=2)` consumes at most 2 s. -/
def ChildBehavior.Wf (b : ChildBehavior) : Prop :=
  0 ≤ b.termWait ∧
  (b.diesOnTerminate = true → b.termWait ≤ 5) ∧
  (b.diesOnTerminate = false → b.termWait = 5) ∧
  0 ≤ b.killWait ∧ b.killWait ≤ 2

/-- Return path taken by one supervisor invocation. -/
inductive SupPath where
  | notAvailable
  | spawnFailed
  | timedOut
  | collected
deriving DecidableEq

/-- Observable outcome of one supervisor invocation: the Python return value
(`dict` or `None`), whether the Result Channel temporary file was created
and whether a child was spawned, which shutdown signals were sent, whether
the artifact file still exists when `execute` returns, whether the child is
still alive then, the elapsed wall-clock time, and the path taken. -/
structure SupRun where
  result : Option Payload
  tempCreated : Bool
  spawned : Bool
  sentTerminate : Bool
  sentKill : Bool
  artifactAtReturn : Bool
  childAliveAtReturn : Bool
  elapsed : Rat
  path : SupPath
deriving DecidableEq

/-- Embedding of the supervisor `run_diarization_isolated`
(`pyannote_isolated.py` lines 212-316). `available` is the module-level
`PYANNOTE_AVAILABLE` flag; `spawnRaises` models an exception inside the
`try` block while constructing or starting the child process, which the
`finally` clause still follows with the artifact unlink. On the timeout
path the code escalates SIGTERM, `join(5)`, then if still alive SIGKILL,
`join(2)`, deletes the artifact and returns `None`; on a child exit it logs
the exit code, parses the artifact and returns the parsed dict only when
`success` is truthy, `None` otherwise; the `finally` unlink runs on every
path, so the artifact never survives the call. -/
def run_diarization_isolated (available spawnRaises : Bool)
    (b : ChildBehavior) (timeout : Rat) : SupRun :=
  if available = false then
    { result := none, tempCreated := false, spawned := false
      sentTerminate := false, sentKill := false, artifactAtReturn := false
      childAliveAtReturn := false, elapsed := 0, path := .notAvailable }
  else if spawnRaises then
    { result := none, tempCreated := true, spawned := false
      sentTerminate := false, sentKill := false, artifactAtReturn := false
      childAliveAtReturn := false, elapsed := 0, path := .spawnFailed }
  else if b.exitsBeforeDeadline = false then
    { result := none, tempCreated := true, spawned := true
      sentTerminate := true, sentKill := !b.diesOnTerminate
      artifactAtReturn := false, childAliveAtReturn := false
      elapsed := timeout + b.termWait
        + (if b.diesOnTerminate then 0 else b.killWait)
      path := .timedOut }
  else
    { result := b.artifact.successPayload, tempCreated := true
      spawned := true, sentTerminate := false, sentKill := false
      artifactAtReturn := false, childAliveAtReturn := false
      elapsed := b.runTime, path := .collected }

/-- Diarization result used as a concrete input: three tracks over two
speakers, with the labels out of order and one duplicate. -/
def tracksA : List Segment :=
  [⟨0, 3/2, "SPEAKER_01"⟩, ⟨3/2, 3, "SPEAKER_00"⟩, ⟨3, 4, "SPEAKER_01"⟩]

/-- RuntimeError with no memory-related text. -/
def excBoom : Exc := ⟨true, "mps graph compile failed"⟩

/-- Worker environment in which every collaborator call whose invocation
appears in the source text would succeed. -/
def envPrimaryOk : WorkerEnv :=
  { pipelineCreation := .ok (), ffmpegExitCode := 0
    inference := .ok tracksA, fallbackRun := .ok []
    deviceStr := "mps:0", inferElapsed := 12 }

/-- Worker environment in which pipeline creation succeeds and ffmpeg,
were it ever reached, would exit with status 1. -/
def envFfmpegFail : WorkerEnv :=
  { pipelineCreation := .ok (), ffmpegExitCode := 1
    inference := .ok [], fallbackRun := .ok []
    deviceStr := "mps:0", inferElapsed := 0 }

/-- Child that exits quickly leaving a valid failure artifact. -/
def childFailArt : ChildBehavior :=
  { exitsBeforeDeadline := true, runTime := 10, exitCode := 0
    artifact := .valid (mkFailurePayload "boom")
    diesOnTerminate := true, termWait := 0, killWait := 0 }

/-- Child that never exits on its own and survives SIGTERM. -/
def childHang : ChildBehavior :=
  { exitsBeforeDeadline := false, runTime := 0, exitCode := 0
    artifact := .malformed
    diesOnTerminate := false, termWait := 5, killWait := 2 }

/-- C6: the Device Selector returns `cpu` whenever the accelerator is not
preferred, not reported available, or its single self-test raises, and
returns the accelerator handle exactly when it is preferred, reported
available, and the one self-test succeeds; the self-test body runs at most
once, and runs exactly when the accelerator is preferred and reported
available. -/
theorem get_safe_device_selects (prefer_mps fallback_to_cpu : Bool)
    (env : MpsEnv) :
    ((get_safe_device prefer_mps fallback_to_cpu env).device = "mps"
      ↔ prefer_mps = true ∧ env.hasMpsBackend = true
          ∧ env.mpsAvailable = true ∧ env.selfTestOk = true)
  ∧ ((get_safe_device prefer_mps fallback_to_cpu env).device = "mps"
      ∨ (get_safe_device prefer_mps fallback_to_cpu env).device = "cpu")
  ∧ (get_safe_device prefer_mps fallback_to_cpu env).selfTests ≤ 1
  ∧ ((get_safe_device prefer_mps fallback_to_cpu env).selfTests = 1
      ↔ prefer_mps = true ∧ env.hasMpsBackend = true
          ∧ env.mpsAvailable = true) := by
  obtain ⟨hb, ha, hs⟩ := env
  cases prefer_mps <;> cases fallback_to_cpu <;> cases hb <;> cases ha <;>
    cases hs <;> decide

/-- C8 counterexample: on a raising inference call the Execution Wrapper
performs no post-call cleanup at all — the trace ends at the pipeline call,
with a single garbage-collection pass (the pre-call one) instead of the
claimed two. -/
theorem memory_management_no_post_cleanup_on_raise :
    (process_with_memory_management "mps" (.error excBoom)).2
        = [MemEvent.mpsCache, MemEvent.gcPass, MemEvent.pipelineCall]
  ∧ ((process_with_memory_management "mps" (.error excBoom)).2).count
        MemEvent.gcPass = 1 := by
  exact ⟨rfl, rfl⟩

/-- C8 amended: the Execution Wrapper issues the device-appropriate cache
clear and a garbage-collection pass before the inference call on every
path, and issues them again after the call only when the call succeeds; a
raising call propagates unchanged with no post-call cleanup. -/
theorem memory_management_trace (d : String)
    (call : Except Exc (List Segment)) :
    (process_with_memory_management d call).1 = call
  ∧ (process_with_memory_management d call).2
      = cacheClear d ++ [MemEvent.gcPass] ++ [MemEvent.pipelineCall]
        ++ (match call with
            | .ok _ => cacheClear d ++ [MemEvent.gcPass]
            | .error _ => ([] : List MemEvent)) := by
  cases call <;> simp [process_with_memory_management]

/-- C4: on every return path of the supervisor — success, worker failure,
timeout, crash, and an exception while spawning — the Result Channel
Artifact no longer exists on the filesystem when `execute` returns. -/
theorem run_diarization_isolated_artifact_deleted
    (available spawnRaises : Bool) (b : ChildBehavior) (t : Rat) :
    (run_diarization_isolated available spawnRaises b t).artifactAtReturn
      = false := by
  unfold run_diarization_isolated
  repeat' split
  all_goals rfl

/-- C10: when the pyannote helper module is unavailable, the supervisor
returns its no-result value immediately: no child is spawned, no Result
Channel temporary file is created, no signal is sent, and no filesystem
state is touched. -/
theorem run_diarization_isolated_not_available (spawnRaises : Bool)
    (b : ChildBehavior) (t : Rat) :
    (run_diarization_isolated false spawnRaises b t).result = none
  ∧ (run_diarization_isolated false spawnRaises b t).spawned = false
  ∧ (run_diarization_isolated false spawnRaises b t).tempCreated = false
  ∧ (run_diarization_isolated false spawnRaises b t).sentTerminate = false
  ∧ (run_diarization_isolated false spawnRaises b t).sentKill = false
  ∧ (run_diarization_isolated false spawnRaises b t).artifactAtReturn = false
  ∧ (run_diarization_isolated false spawnRaises b t).path
      = SupPath.notAvailable :=
  ⟨rfl, rfl, rfl, rfl, rfl, rfl, rfl⟩

/-- C1 counterexample: a child that exits leaving a valid artifact with
`success=false` and reason `boom`, and a child that hangs past the
deadline, both make the supervisor return the bare `none` — the Failure
reason is not carried, and Failure, Timeout and CrashedOrUnknown are not
distinguishable by the caller. -/
theorem run_outcomes_not_distinguishable :
    childFailArt.artifact = .valid (mkFailurePayload "boom")
  ∧ (mkFailurePayload "boom").success = false
  ∧ childFailArt.exitsBeforeDeadline = true
  ∧ childHang.exitsBeforeDeadline = false
  ∧ (run_diarization_isolated true false childFailArt 600).result = none
  ∧ (run_diarization_isolated true false childHang 600).result = none :=
  ⟨rfl, rfl, rfl, rfl, rfl, rfl⟩

/-- C1 amended: the outcome mapping of the supervisor is total — every invocation
returns exactly one value — and a valid artifact with `success=true` is
returned as the success payload, but every other cause (valid artifact with
`success=false`, missing or malformed artifact, deadline expiry, spawn
failure, helper unavailable) collapses to the single no-result value
`none`, so only success is distinguishable by the caller. -/
theorem run_result_characterization (available spawnRaises : Bool)
    (b : ChildBehavior) (t : Rat) :
    (run_diarization_isolated available spawnRaises b t).result
      = if available = true ∧ spawnRaises = false
            ∧ b.exitsBeforeDeadline = true
        then b.artifact.successPayload else none := by
  cases available <;> cases spawnRaises <;> cases hb : b.exitsBeforeDeadline <;>
    simp [run_diarization_isolated, hb]

/-- C3: when the child has not exited at the deadline, the supervisor takes
the timeout path: it sends the graceful termination signal, sends the
forceful kill exactly when the grace wait left the child alive, finishes
within `deadline + 5 + 2` seconds, deletes any partially written artifact,
leaves no child alive, and returns the timeout outcome — which in the code
is the no-result value `None`, per the docstring contract of the supervisor,
`dict ... ou None si erreur/timeout`. -/
theorem supervisor_timeout_escalation (b : ChildBehavior) (t : Rat)
    (hwf : b.Wf) (h : b.exitsBeforeDeadline = false) :
    (run_diarization_isolated true false b t).path = SupPath.timedOut
  ∧ (run_diarization_isolated true false b t).result = none
  ∧ (run_diarization_isolated true false b t).sentTerminate = true
  ∧ (run_diarization_isolated true false b t).sentKill = !b.diesOnTerminate
  ∧ (run_diarization_isolated true false b t).elapsed ≤ t + 5 + 2
  ∧ (run_diarization_isolated true false b t).artifactAtReturn = false
  ∧ (run_diarization_isolated true false b t).childAliveAtReturn = false := by
  obtain ⟨h0, h1, h2, h3, h4⟩ := hwf
  have hr : run_diarization_isolated true false b t =
      { result := none, tempCreated := true, spawned := true
        sentTerminate := true, sentKill := !b.diesOnTerminate
        artifactAtReturn := false, childAliveAtReturn := false
        elapsed := t + b.termWait
          + (if b.diesOnTerminate then 0 else b.killWait)
        path := .timedOut } := by
    simp [run_diarization_isolated, h]
  rw [hr]
  refine ⟨rfl, rfl, rfl, rfl, ?_, rfl, rfl⟩
  cases hd : b.diesOnTerminate with
  | false =>
    simp only [hd, if_neg Bool.false_ne_true]
    rw [h2 hd]
    linarith
  | true =>
    have h5 := h1 hd
    simp only [hd, if_true, eq_self_iff_true]
    linarith

/-- C3 witness: a child that hangs and survives SIGTERM, with a 600 s
deadline. -/
theorem supervisor_timeout_escalation_witness :
    (childHang.Wf ∧ childHang.exitsBeforeDeadline = false)
  ∧ ((run_diarization_isolated true false childHang 600).path
        = SupPath.timedOut
      ∧ (run_diarization_isolated true false childHang 600).result = none
      ∧ (run_diarization_isolated true false childHang 600).sentTerminate
          = true
      ∧ (run_diarization_isolated true false childHang 600).sentKill
          = !childHang.diesOnTerminate
      ∧ (run_diarization_isolated true false childHang 600).elapsed
          ≤ 600 + 5 + 2
      ∧ (run_diarization_isolated true false childHang 600).artifactAtReturn
          = false
      ∧ (run_diarization_isolated true false childHang 600).childAliveAtReturn
          = false) := by
  have hwf : childHang.Wf := by
    refine ⟨by norm_num [childHang], ?_, ?_, by norm_num [childHang],
      by norm_num [childHang]⟩
    · intro hd
      simp [childHang] at hd
    · intro _
      rfl
  exact ⟨⟨hwf, rfl⟩, supervisor_timeout_escalation childHang 600 hwf rfl⟩

/-- C2: evaluation at the failing input — with the helper available, the
pipeline built, and ffmpeg set up to exit with status 1, the worker dies
with the uncaught line-89 `ValueError` before the transcoder is ever
invoked, and no Job Outcome payload is written to the Result Channel; the
claim expects a written failure payload on this path. -/
theorem worker_transcoder_scenario_dies_before_ffmpeg :
    envFfmpegFail.ffmpegExitCode = 1
  ∧ (diarize_isolated true envFfmpegFail).written = none
  ∧ (diarize_isolated true envFfmpegFail).uncaught = some valueErrorSuffix
  ∧ valueErrorSuffix.isRuntimeError = false :=
  ⟨rfl, rfl, rfl, rfl⟩

/-- C5: the worker never retries inference on the CPU: every run on which
the pipeline is built dies at line 89 before inference can raise anything,
and the only entry into the fallback block — a memory `RuntimeError` from
pipeline creation — fails at once on the unbound `pipeline` name without
re-running inference, so the one-retry behaviour the claim describes is
unreachable in the code. -/
theorem worker_never_retries_inference (available : Bool)
    (env : WorkerEnv) :
    (diarize_isolated available env).fallbackAttempts = 0 := by
  rcases env with ⟨pc, ff, inf, fb, ds, el⟩
  cases available with
  | false => simp [diarize_isolated]
  | true =>
    cases pc with
    | error e =>
      cases he : e.isRuntimeError with
      | true => cases hm : memRelated e.msg <;> simp [diarize_isolated, he, hm]
      | false => simp [diarize_isolated, he]
    | ok u => simp [diarize_isolated]

/-- C7: evaluation at the failing input — in the environment where every
collaborator call whose invocation appears in the source text would
succeed, the worker writes no payload and returns nothing: it dies at line
89 with the uncaught `ValueError`, so no Success Outcome is ever produced
for the claimed invariants to hold of. -/
theorem worker_all_ok_run_writes_nothing :
    (diarize_isolated true envPrimaryOk).written = none
  ∧ (diarize_isolated true envPrimaryOk).returned = none
  ∧ (diarize_isolated true envPrimaryOk).uncaught = some valueErrorSuffix :=
  ⟨rfl, rfl, rfl⟩

/-- C9: every artifact the worker can actually write is a failure payload
with `success=false` carrying exactly the `error` key besides `success`;
the success-artifact shapes the claim describes (`pyannote_isolated.py`
lines 127-134 and 173-181) are dead code behind the line-89 `ValueError`
and are never written. -/
theorem worker_writes_only_failure_payloads (available : Bool)
    (env : WorkerEnv) :
    match (diarize_isolated available env).written with
    | none => True
    | some p =>
        p.success = false ∧ p.error.isSome = true ∧ p.speakers = none
      ∧ p.segments = none ∧ p.total_segments = none ∧ p.device_used = none
      ∧ p.processing_time = none ∧ p.fallback_cpu = none := by
  rcases env with ⟨pc, ff, inf, fb, ds, el⟩
  cases available with
  | false => simp [diarize_isolated, mkFailurePayload]
  | true =>
    cases pc with
    | error e =>
      cases he : e.isRuntimeError with
      | true =>
        cases hm : memRelated e.msg <;>
          simp [diarize_isolated, he, hm, mkFailurePayload]
      | false => simp [diarize_isolated, he]
    | ok u => simp [diarize_isolated]
